import Mathlib

/-!
Shallow embedding of the trivia service backend
(`backend/flaskr/__init__.py`): pagination, question listing, deletion,
create-or-search dispatch, and quiz selection, together with the store
operations the endpoints invoke.

The persistent store is modelled as a `List Question` (the ordered,
filterable, countable collection the service reads and writes).  The HTTP
layer (`jsonify`, routing, CORS) is plumbing and is modelled as the
identity on the result records; the repository's tests assert all the
modelled success responses reach the client as HTTP 200.

Every endpoint body that the source wraps in `try: ... except: abort(422)`
is embedded in two stages: an inner function returning `Except Nat _`
whose `.error c` is an `abort(c)` or a raised exception inside the `try`
block, and the endpoint proper, which maps every inner error to HTTP 422 -
werkzeug's `abort` raises an `HTTPException`, which the bare `except`
catches and converts to `abort(422)`.
-/

namespace Trivia

/-- A question record.  Fields follow `models.py`'s `Question`
(identifier, question text, answer text, difficulty, category id). -/
structure Question where
  id : Nat
  question : String
  answer : String
  difficulty : Nat
  category : Nat
deriving DecidableEq, Repr

/-- A category record (`models.py`'s `Category`): identifier and label. -/
structure Category where
  id : Nat
  type : String
deriving DecidableEq, Repr

/-- The dictionary produced by `question.format()`. -/
structure QFormat where
  id : Nat
  question : String
  answer : String
  difficulty : Nat
  category : Nat
deriving DecidableEq, Repr

/-- Modelled from the spec: `Question.format` lives in `models.py`, which
is not part of the sources; per the data model it returns the record's
five fields unchanged. -/
def Question.format (q : Question) : QFormat :=
  ⟨q.id, q.question, q.answer, q.difficulty, q.category⟩

/-- Modelled from the spec: identifiers are unique and assigned at
creation by the store (serial primary key); a fresh identifier is any
value distinct from all identifiers present. -/
def freshId (store : List Question) : Nat :=
  store.foldr (fun q m => max q.id m) 0 + 1

/-- Insert one element into a list sorted by ascending `id`. -/
def insertById (q : Question) : List Question → List Question
  | [] => [q]
  | x :: xs => if q.id ≤ x.id then q :: x :: xs else x :: insertById q xs

/-- `Question.query.order_by(Question.id)`: the selection in ascending
identifier order (insertion sort; identifiers are unique). -/
def sortById : List Question → List Question
  | [] => []
  | x :: xs => insertById x (sortById xs)

/-- An endpoint outcome: a success payload or an HTTP error code sent
through the standardized error envelope. -/
inductive Resp (α : Type) where
  | ok : α → Resp α
  | err : Nat → Resp α
deriving DecidableEq, Repr

/-- The success payload of a response, if any. -/
def Resp.ok? : Resp α → Option α
  | .ok a => some a
  | .err _ => none

/-- `QUESTIONS_PER_PAGE = 10`. -/
def QUESTIONS_PER_PAGE : Nat := 10

/-- Python's list slice `l[a:b]` for non-negative bounds `a ≤ b`:
the elements at indices `[a, b)`, clamped to the list. -/
def pyslice (l : List α) (a b : Nat) : List α :=
  (l.drop a).take (b - a)

/-- `paginate_questions(request, selection)`: formats the selection and
returns the slice `[(page-1)*10 : page*10]`.  The page number comes from
`request.args.get("page", 1, type=int)`; the model covers pages ≥ 1
(1 is the default for an absent or non-numeric argument). -/
def paginate_questions (page : Nat) (selection : List Question) : List QFormat :=
  let start := (page - 1) * QUESTIONS_PER_PAGE
  let stop := start + QUESTIONS_PER_PAGE
  let questions := selection.map Question.format
  pyslice questions start stop

/-- The loop building `cat_dict` from `Category.query.all()`
(category identifiers are unique, so the dict is the list of pairs). -/
def catDict (cats : List Category) : List (Nat × String) :=
  cats.map fun c => (c.id, c.type)

/-- Success payload of `GET /questions`. -/
structure ListResult where
  categories : List (Nat × String)
  total_questions : Nat
  questions : List QFormat
deriving DecidableEq, Repr

/-- `get_questions` (`GET /questions`): loads all questions and
categories, computes the page, aborts 404 when the page or the category
dict is empty, and otherwise answers with the category dict, the total
count, and `question_format` - the formatted FULL collection (the computed
page `current_questions` is used only for the emptiness check). -/
def get_questions (store : List Question) (cats : List Category)
    (page : Nat) : Resp ListResult :=
  let question_format := store.map Question.format
  let total_questions := store.length
  let current_questions := paginate_questions page store
  let cat_dict := catDict cats
  if current_questions.length = 0 ∨ cat_dict.length = 0 then .err 404
  else .ok ⟨cat_dict, total_questions, question_format⟩

/-- Success payload of `DELETE /questions/<id>`. -/
structure DeleteResult where
  question_deleted : Nat
  total_questions : Nat
  questions : List QFormat
deriving DecidableEq, Repr

/-- The `try` body of `delete_question`: `one_or_none` by identifier
(identifiers are unique, so this is the first match), `abort(400)` when
absent, otherwise delete-by-id from the store and rebuild the listing
ordered by identifier.  Returns the result record and the new store. -/
def delete_body (store : List Question) (question_id : Nat) (page : Nat) :
    Except Nat (DeleteResult × List Question) :=
  match store.find? (fun q => q.id == question_id) with
  | none => .error 400
  | some _ =>
    let store2 := store.filter (fun q => q.id != question_id)
    let selection := sortById store2
    let _current_questions := paginate_questions page selection
    let question_format := selection.map Question.format
    .ok (⟨question_id, store2.length, question_format⟩, store2)

/-- `delete_question` (`DELETE /questions/<id>`): the `try` body with the
bare `except` mapping every failure (including the inner `abort(400)`)
to 422; on failure the store is unchanged. -/
def delete_question (store : List Question) (question_id : Nat)
    (page : Nat) : Resp DeleteResult × List Question :=
  match delete_body store question_id page with
  | .ok (r, s2) => (.ok r, s2)
  | .error _ => (.err 422, store)

/-- Case-fold a string characterwise (SQL `lower`). -/
def foldChars (s : String) : List Char :=
  s.toList.map Char.toLower

/-- Whether `needle` occurs at the head of `haystack`. -/
def hasPrefixList : List Char → List Char → Bool
  | [], _ => true
  | _ :: _, [] => false
  | c :: cs, d :: ds => c == d && hasPrefixList cs ds

/-- Whether `needle` occurs as a contiguous slice of `haystack`. -/
def containsSlice (needle : List Char) : List Char → Bool
  | [] => needle.isEmpty
  | c :: rest => hasPrefixList needle (c :: rest) || containsSlice needle rest

/-- `Question.question.ilike(f'%{search_term}%')`: ILIKE case-folds both
sides, and the `%...%` pattern tests substring occurrence.  (Wildcard
metacharacters inside the term itself are not modelled; no claim
exercises them.) -/
def ilikeContains (text term : String) : Bool :=
  containsSlice (foldChars term) (foldChars text)

/-- The search selection: all questions ordered by identifier whose text
matches the term case-insensitively. -/
def searchSelection (store : List Question) (term : String) : List Question :=
  (sortById store).filter (fun q => ilikeContains q.question term)

/-- Python truthiness of `search_term` (`None` or `''` is falsy). -/
def truthyStr : Option String → Bool
  | none => false
  | some s => !s.toList.isEmpty

/-- The JSON body of `POST /questions`: each field is `body.get(k, None)`. -/
structure PostBody where
  question : Option String
  answer : Option String
  difficulty : Option Nat
  category : Option Nat
  searchTerm : Option String
deriving DecidableEq, Repr

/-- Success payload of the search branch: the FULL match selection (the
paginated subset is computed and discarded) and its size. -/
structure SearchResult where
  questions : List Question
  total_in_search : Nat
deriving DecidableEq, Repr

/-- Success payload of the create branch: the new identifier, the new
total, and the full selection ordered by identifier. -/
structure CreateResult where
  created : Nat
  total_questions : Nat
  questions : List Question
deriving DecidableEq, Repr

/-- The two success shapes of `POST /questions`. -/
inductive PostOutcome where
  | search : SearchResult → PostOutcome
  | create : CreateResult → PostOutcome
deriving DecidableEq, Repr

/-- The `try` body of `post_or_search_question`: dispatch on a truthy
`searchTerm`.  Search: filter by ILIKE, paginate, `abort(404)` when the
page of matches is empty, else answer with the full selection.  Create:
`abort(422)` when any of the four fields is `None`, else insert a question
with a fresh identifier and answer with its identifier, the new total, and
the reloaded selection.  Returns the result and the (possibly new) store. -/
def post_body (store : List Question) (body : PostBody) (page : Nat) :
    Except Nat (PostOutcome × List Question) :=
  if truthyStr body.searchTerm then
    let selection := searchSelection store (body.searchTerm.getD "")
    let current_questions := paginate_questions page selection
    if current_questions.isEmpty then .error 404
    else .ok (.search ⟨selection, selection.length⟩, store)
  else
    if body.question = none ∨ body.answer = none ∨ body.difficulty = none
        ∨ body.category = none then .error 422
    else
      -- the four fields are not `None` here, so `getD` only unwraps them
      let created_question : Question :=
        ⟨freshId store, body.question.getD "", body.answer.getD "",
          body.difficulty.getD 0, body.category.getD 0⟩
      let store2 := store ++ [created_question]
      let selection := sortById store2
      let _current_questions := paginate_questions page selection
      .ok (.create ⟨created_question.id, store2.length, selection⟩, store2)

/-- `post_or_search_question` (`POST /questions`): the `try` body with the
bare `except` mapping every failure (including the inner `abort(404)` and
`abort(422)`) to 422; on failure the store is unchanged. -/
def post_or_search_question (store : List Question) (body : PostBody)
    (page : Nat) : Resp PostOutcome × List Question :=
  match post_body store body page with
  | .ok (r, s2) => (.ok r, s2)
  | .error _ => (.err 422, store)

/-- The `quiz_category` dictionary of a `POST /quizzes` body: `cat.id`
models the `'id'` key (`none` when the key is missing). -/
structure QuizCategory where
  id : Option Nat
deriving DecidableEq, Repr

/-- The JSON body of `POST /quizzes`. -/
structure QuizBody where
  quiz_category : Option QuizCategory
  previous_questions : Option (List Nat)
deriving DecidableEq, Repr

/-- The category-scoped candidate pool: all questions (category id 0) or
the chosen category's questions, minus the previously seen identifiers. -/
def quizCandidates (store : List Question) (cid : Nat) (prev : List Nat) :
    List Question :=
  if cid = 0 then store.filter (fun q => !(prev.contains q.id))
  else (store.filter (fun q => q.category == cid)).filter
    (fun q => !(prev.contains q.id))

/-- The `try` body of `quiz`: a missing `quiz_category` makes
`category['id']` raise `TypeError`; a descriptor without `'id'` raises
`KeyError`; a missing `previous_questions` makes `notin_(None)` raise -
each lands in the bare `except`.  Otherwise the candidate pool is built
and, when non-empty, one candidate at a random index
`random.randrange(0, len(questions))` is formatted and returned; an empty
pool returns the `None` completion sentinel.  The random draw is modelled
by the parameter `r`, reduced into range. -/
def quiz_body (store : List Question) (body : QuizBody) (r : Nat) :
    Except Nat (Option QFormat) :=
  match body.quiz_category with
  | none => .error 422
  | some cat =>
    match cat.id with
    | none => .error 422
    | some cid =>
      match body.previous_questions with
      | none => .error 422
      | some prev =>
        let questions := quizCandidates store cid prev
        if h : 0 < questions.length then
          .ok (some (Question.format
            (questions.get ⟨r % questions.length, Nat.mod_lt r h⟩)))
        else .ok none

/-- `quiz` (`POST /quizzes`): the `try` body with the bare `except`
mapping every failure to 422; a success carries `question`, which is
`null` when the quiz is complete. -/
def quiz (store : List Question) (body : QuizBody) (r : Nat) :
    Resp (Option QFormat) :=
  match quiz_body store body r with
  | .ok q => .ok q
  | .error _ => .err 422

/-! ## Theorems -/

/-- Unfolding of `paginate_questions` to a take/drop window. -/
theorem paginate_questions_eq (p : Nat) (sel : List Question) :
    paginate_questions p sel =
      ((sel.map Question.format).drop ((p - 1) * 10)).take 10 := by
  simp [paginate_questions, pyslice, QUESTIONS_PER_PAGE]

/-- C6: `paginate_questions` applied to any sequence of questions, page
`p ≥ 1` and fixed page size 10 returns exactly the half-open window
`[(p-1)*10, p*10)` of the formatted input in the input's order (at most
10 items); when `(p-1)*10` is at or beyond the input length it returns
the empty sequence (and, being a total function, never signals an
error). -/
theorem C6_paginate_questions_window (sel : List Question) (p : Nat)
    (hp : 1 ≤ p) :
    (∀ i : Nat, (paginate_questions p sel)[i]? =
        if i < 10 then (sel.map Question.format)[(p - 1) * 10 + i]? else none)
    ∧ (paginate_questions p sel).length ≤ 10
    ∧ ((sel.map Question.format).length ≤ (p - 1) * 10 →
        paginate_questions p sel = []) := by
  refine ⟨fun i => ?_, ?_, fun h => ?_⟩
  · rw [paginate_questions_eq, List.getElem?_take]
    by_cases hi : i < 10
    · rw [if_pos hi, if_pos hi, List.getElem?_drop]
    · rw [if_neg hi, if_neg hi]
  · rw [paginate_questions_eq, List.length_take]
    exact Nat.min_le_left _ _
  · rw [paginate_questions_eq, List.drop_eq_nil_of_le h, List.take_nil]

/-- Witness for C6 at a concrete selection and page 2. -/
theorem C6_witness :
    1 ≤ 2 ∧ (paginate_questions 2 [⟨1, "a", "b", 1, 1⟩] = []) := by
  have h := C6_paginate_questions_window [⟨1, "a", "b", 1, 1⟩] 2 (by decide)
  exact ⟨by decide, h.2.2 (by decide)⟩

/-- An eleven-question store: page 1 is a strict prefix of the whole
collection, separating "the page" from "the full collection". -/
def elevenQ : List Question :=
  (List.range 11).map (fun i => ⟨i + 1, "q", "a", 1, 1⟩)

/-- C1 counterexample: with eleven questions, one category and page 1,
all preconditions of the claim hold (both collections non-empty, page
window non-empty), yet the success response's `questions` field is not
the page window `[(page-1)*10, page*10)` - the endpoint answers with the
full formatted collection. -/
theorem C1_counterexample :
    paginate_questions 1 elevenQ ≠ []
    ∧ catDict [⟨1, "Science"⟩] ≠ []
    ∧ (Resp.ok? (get_questions elevenQ [⟨1, "Science"⟩] 1)).map
        ListResult.questions ≠ some (paginate_questions 1 elevenQ) := by
  decide

/-- C1 (amended): for every GET /questions request where the category
collection is non-empty and the requested page window is non-empty, the
response succeeds and carries the category mapping and the full count in
`total_questions`, but its `questions` field is the formatted FULL
question collection; the page window is computed only to drive the
not-found check. -/
theorem C1_lists_full_collection (store : List Question)
    (cats : List Category) (page : Nat)
    (hq : paginate_questions page store ≠ []) (hc : cats ≠ []) :
    get_questions store cats page =
      Resp.ok ⟨catDict cats, store.length, store.map Question.format⟩ := by
  have h1 : ¬((paginate_questions page store).length = 0
      ∨ (catDict cats).length = 0) := by
    rintro (h | h)
    · exact hq (List.length_eq_zero.mp h)
    · exact hc (by simpa [catDict, List.length_eq_zero] using h)
  simp only [get_questions]
  rw [if_neg h1]

/-- Witness for C1 (amended) at a one-question, one-category store. -/
theorem C1_witness :
    paginate_questions 1 [⟨1, "a", "b", 1, 1⟩] ≠ []
    ∧ ([⟨1, "Science"⟩] : List Category) ≠ []
    ∧ get_questions [⟨1, "a", "b", 1, 1⟩] [⟨1, "Science"⟩] 1 =
        Resp.ok ⟨catDict [⟨1, "Science"⟩], 1, [Question.format ⟨1, "a", "b", 1, 1⟩]⟩ :=
  ⟨by decide, by decide,
    C1_lists_full_collection [⟨1, "a", "b", 1, 1⟩] [⟨1, "Science"⟩] 1
      (by decide) (by decide)⟩

/-- C2 counterexample: a search with a non-empty term ("zzz") matching
zero questions answers HTTP 422, not 404: the `abort(404)` raised for an
empty match page lies inside the `try` block, so the bare `except`
converts it to `abort(422)` (the repository's own test
`test_422_error_no_search_results` asserts exactly this). -/
theorem C2_counterexample :
    truthyStr (some "zzz") = true
    ∧ searchSelection [⟨1, "a", "b", 1, 1⟩] "zzz" = []
    ∧ (post_or_search_question [⟨1, "a", "b", 1, 1⟩]
        ⟨none, none, none, none, some "zzz"⟩ 1).1 = Resp.err 422
    ∧ (post_or_search_question [⟨1, "a", "b", 1, 1⟩]
        ⟨none, none, none, none, some "zzz"⟩ 1).1 ≠ Resp.err 404 := by
  decide

/-- C2 (amended): for every POST /questions request carrying a truthy
(non-empty) search term that matches zero questions, the operation
answers HTTP 422 with the standard error envelope (the inner
`abort(404)` is swallowed by the blanket exception handler) and leaves
the store unchanged. -/
theorem C2_zero_matches_422 (store : List Question) (body : PostBody)
    (page : Nat) (ht : truthyStr body.searchTerm = true)
    (hz : searchSelection store (body.searchTerm.getD "") = []) :
    post_or_search_question store body page = (Resp.err 422, store) := by
  simp [post_or_search_question, post_body, ht, hz, paginate_questions,
    pyslice]

/-- Witness for C2 (amended) at a concrete store and term. -/
theorem C2_witness :
    truthyStr (some "butterbeer") = true
    ∧ searchSelection [⟨1, "a", "b", 1, 1⟩] "butterbeer" = []
    ∧ post_or_search_question [⟨1, "a", "b", 1, 1⟩]
        ⟨none, none, none, none, some "butterbeer"⟩ 1 =
        (Resp.err 422, [⟨1, "a", "b", 1, 1⟩]) :=
  ⟨by decide, by decide,
    C2_zero_matches_422 [⟨1, "a", "b", 1, 1⟩]
      ⟨none, none, none, none, some "butterbeer"⟩ 1 (by decide) (by decide)⟩

/-- Removing the (unique) question with a given identifier shortens the
store by exactly one. -/
theorem length_filter_ne_of_mem (store : List Question) (qid : Nat)
    (hnd : (store.map Question.id).Nodup)
    (hmem : ∃ q ∈ store, q.id = qid) :
    (store.filter (fun q => q.id != qid)).length + 1 = store.length := by
  induction store with
  | nil => rcases hmem with ⟨q, hq, _⟩; cases hq
  | cons x xs ih =>
    rw [List.map_cons, List.nodup_cons] at hnd
    by_cases hx : x.id = qid
    · have hall : ∀ q ∈ xs, (fun q => q.id != qid) q = true := by
        intro q hq
        have hne : q.id ≠ qid := fun he => hnd.1 (by
          rw [hx, ← he]; exact List.mem_map_of_mem Question.id hq)
        simpa using hne
      rw [List.filter_cons_of_neg (by simpa using hx),
        List.filter_eq_self.mpr hall]
      simp
    · have hmem' : ∃ q ∈ xs, q.id = qid := by
        rcases hmem with ⟨q, hq, he⟩
        rcases List.mem_cons.mp hq with rfl | hq'
        · exact absurd he hx
        · exact ⟨q, hq', he⟩
      rw [List.filter_cons_of_pos (by simpa using hx)]
      simp only [List.length_cons]
      have := ih hnd.2 hmem'
      omega

/-- C3: deleting an existing question succeeds, leaves exactly one fewer
question in the store, and the deleted identifier appears in no element
of the resulting store nor in any subsequent successful listing; deleting
a non-existent identifier answers HTTP 422 (the inner `abort(400)` is
converted by the bare `except`) and leaves the store unchanged.
Identifiers are unique in the store (primary key). -/
theorem C3_delete_question (store : List Question) (qid page : Nat)
    (hnd : (store.map Question.id).Nodup) :
    ((∃ q ∈ store, q.id = qid) →
      (∃ r, (delete_question store qid page).1 = Resp.ok r
        ∧ r.question_deleted = qid
        ∧ r.total_questions = (delete_question store qid page).2.length)
      ∧ (delete_question store qid page).2.length + 1 = store.length
      ∧ (∀ q ∈ (delete_question store qid page).2, q.id ≠ qid)
      ∧ (∀ (cats : List Category) (p : Nat) (l : ListResult),
          get_questions (delete_question store qid page).2 cats p = Resp.ok l →
          ∀ fq ∈ l.questions, fq.id ≠ qid))
    ∧ ((∀ q ∈ store, q.id ≠ qid) →
      delete_question store qid page = (Resp.err 422, store)) := by
  constructor
  · rintro ⟨q0, hq0, hid⟩
    obtain ⟨q', hfind⟩ :
        ∃ q', store.find? (fun q => q.id == qid) = some q' := by
      cases hfind : store.find? (fun q => q.id == qid) with
      | none =>
        exact absurd (List.find?_eq_none.mp hfind q0 hq0) (by simp [hid])
      | some q' => exact ⟨q', rfl⟩
    have hsnd : (delete_question store qid page).2 =
        store.filter (fun q => q.id != qid) := by
      simp [delete_question, delete_body, hfind]
    have hmemne : ∀ q ∈ (delete_question store qid page).2, q.id ≠ qid := by
      rw [hsnd]
      intro q hq
      simpa using (List.mem_filter.mp hq).2
    have hfst : (delete_question store qid page).1 =
        Resp.ok ⟨qid, (store.filter (fun q => q.id != qid)).length,
          (sortById (store.filter (fun q => q.id != qid))).map
            Question.format⟩ := by
      simp [delete_question, delete_body, hfind]
    refine ⟨⟨_, hfst, rfl, ?_⟩, ?_, hmemne, ?_⟩
    · rw [hsnd]
    · rw [hsnd]
      exact length_filter_ne_of_mem store qid hnd ⟨q0, hq0, hid⟩
    · intro cats p l hl fq hfq
      simp only [get_questions] at hl
      split at hl
      · exact absurd hl (by simp)
      · rw [Resp.ok.injEq] at hl
        subst hl
        obtain ⟨q, hq, rfl⟩ := List.mem_map.mp hfq
        exact hmemne q hq
  · intro hall
    have hfind : store.find? (fun q => q.id == qid) = none :=
      List.find?_eq_none.mpr (fun q hq => by simpa using hall q hq)
    simp [delete_question, delete_body, hfind]

/-- Witness for C3 at a two-question store, deleting identifier 1
(existing branch) - and identifier 9 is absent, exercised through the
same theorem's second branch. -/
theorem C3_witness :
    ((([⟨1, "a", "b", 1, 1⟩, ⟨2, "c", "d", 1, 1⟩] : List Question).map
        Question.id).Nodup)
    ∧ (delete_question [⟨1, "a", "b", 1, 1⟩, ⟨2, "c", "d", 1, 1⟩] 1 1).2.length
        + 1 = 2
    ∧ delete_question [⟨1, "a", "b", 1, 1⟩, ⟨2, "c", "d", 1, 1⟩] 9 1 =
        (Resp.err 422, [⟨1, "a", "b", 1, 1⟩, ⟨2, "c", "d", 1, 1⟩]) :=
  ⟨by decide,
    ((C3_delete_question [⟨1, "a", "b", 1, 1⟩, ⟨2, "c", "d", 1, 1⟩] 1 1
      (by decide)).1 ⟨⟨1, "a", "b", 1, 1⟩, by decide, rfl⟩).2.1,
    (C3_delete_question [⟨1, "a", "b", 1, 1⟩, ⟨2, "c", "d", 1, 1⟩] 9 1
      (by decide)).2 (by decide)⟩

/-- C4: for every POST /questions create request (search term not
truthy): when question, answer, difficulty and category are all present
the store grows by exactly one question and the response carries the new
question's identifier (`created`), the new total and the reloaded
selection; when any of the four fields is absent the operation answers
HTTP 422 and the store is unchanged. -/
theorem C4_create_question (store : List Question) (body : PostBody)
    (page : Nat) (hs : truthyStr body.searchTerm = false) :
    ((body.question.isSome ∧ body.answer.isSome ∧ body.difficulty.isSome
        ∧ body.category.isSome) →
      (post_or_search_question store body page).2.length = store.length + 1
      ∧ ∃ nq, (post_or_search_question store body page).2 = store ++ [nq]
        ∧ (post_or_search_question store body page).1 =
            Resp.ok (.create ⟨nq.id, store.length + 1,
              sortById (store ++ [nq])⟩))
    ∧ ((body.question = none ∨ body.answer = none ∨ body.difficulty = none
        ∨ body.category = none) →
      post_or_search_question store body page = (Resp.err 422, store)) := by
  constructor
  · rintro ⟨hq, ha, hd, hc⟩
    have hcond : ¬(body.question = none ∨ body.answer = none
        ∨ body.difficulty = none ∨ body.category = none) := by
      rintro (h | h | h | h) <;> simp [h] at hq ha hd hc
    refine ⟨?_, ⟨freshId store, body.question.getD "", body.answer.getD "",
        body.difficulty.getD 0, body.category.getD 0⟩, ?_, ?_⟩ <;>
      simp [post_or_search_question, post_body, hs, if_neg hcond]
  · intro h
    have hcond : body.question = none ∨ body.answer = none
        ∨ body.difficulty = none ∨ body.category = none := h
    simp [post_or_search_question, post_body, hs, if_pos hcond]

/-- Witness for C4: creating with all four fields present at a
one-question store, and a request missing `answer` is rejected. -/
theorem C4_witness :
    truthyStr (none : Option String) = false
    ∧ (post_or_search_question [⟨1, "a", "b", 1, 1⟩]
        ⟨some "why?", some "because", some 1, some 3, none⟩ 1).2.length = 2
    ∧ post_or_search_question [⟨1, "a", "b", 1, 1⟩]
        ⟨some "why?", none, some 1, some 3, none⟩ 1 =
        (Resp.err 422, [⟨1, "a", "b", 1, 1⟩]) :=
  ⟨by decide,
    ((C4_create_question [⟨1, "a", "b", 1, 1⟩]
      ⟨some "why?", some "because", some 1, some 3, none⟩ 1 (by decide)).1
      (by decide)).1,
    (C4_create_question [⟨1, "a", "b", 1, 1⟩]
      ⟨some "why?", none, some 1, some 3, none⟩ 1 (by decide)).2
      (by decide)⟩

/-- C10: create-field validation checks only for absence (`is None`):
with a search term absent, the operation answers HTTP 422 exactly when at
least one of the four fields is absent; whenever all four are present -
whatever their values, falsy ones such as empty strings or difficulty 0
included - a question is inserted. -/
theorem C10_validation_only_absence (store : List Question)
    (body : PostBody) (page : Nat) (hs : body.searchTerm = none) :
    ((post_or_search_question store body page).1 = Resp.err 422 ↔
      (body.question = none ∨ body.answer = none ∨ body.difficulty = none
        ∨ body.category = none))
    ∧ ((body.question.isSome ∧ body.answer.isSome ∧ body.difficulty.isSome
        ∧ body.category.isSome) →
      ∃ nq, (post_or_search_question store body page).2 = store ++ [nq]) := by
  have ht : truthyStr body.searchTerm = false := by rw [hs]; rfl
  constructor
  · by_cases hcond : (body.question = none ∨ body.answer = none
        ∨ body.difficulty = none ∨ body.category = none)
    · simp [post_or_search_question, post_body, ht, if_pos hcond, hcond]
    · simp [post_or_search_question, post_body, ht, if_neg hcond, hcond]
  · rintro ⟨hq, ha, hd, hc⟩
    have hcond : ¬(body.question = none ∨ body.answer = none
        ∨ body.difficulty = none ∨ body.category = none) := by
      rintro (h | h | h | h) <;> simp [h] at hq ha hd hc
    refine ⟨⟨freshId store, body.question.getD "", body.answer.getD "",
        body.difficulty.getD 0, body.category.getD 0⟩, ?_⟩
    simp [post_or_search_question, post_body, ht, if_neg hcond]

/-- Witness for C10: all four fields present but falsy (empty question
and answer text, difficulty 0) - validation passes and a question is
inserted. -/
theorem C10_witness :
    (⟨some "", some "", some 0, some 0, none⟩ : PostBody).searchTerm = none
    ∧ ¬((post_or_search_question [⟨1, "a", "b", 1, 1⟩]
        ⟨some "", some "", some 0, some 0, none⟩ 1).1 = Resp.err 422)
    ∧ ∃ nq, (post_or_search_question [⟨1, "a", "b", 1, 1⟩]
        ⟨some "", some "", some 0, some 0, none⟩ 1).2 =
        [⟨1, "a", "b", 1, 1⟩] ++ [nq] := by
  have h := C10_validation_only_absence [⟨1, "a", "b", 1, 1⟩]
    ⟨some "", some "", some 0, some 0, none⟩ 1 rfl
  exact ⟨rfl, fun he => by simpa using h.1.mp he, h.2 (by decide)⟩

/-- On a body with a category identifier and a previous-questions list,
`quiz_body` reduces to the selection over the candidate pool. -/
theorem quiz_body_valid (store : List Question) (cid : Nat)
    (prev : List Nat) (r : Nat) :
    quiz_body store ⟨some ⟨some cid⟩, some prev⟩ r =
      if hq : 0 < (quizCandidates store cid prev).length then
        Except.ok (some (Question.format ((quizCandidates store cid prev).get
          ⟨r % (quizCandidates store cid prev).length, Nat.mod_lt r hq⟩)))
      else Except.ok none :=
  rfl

/-- On a body with a category identifier and a previous-questions list,
`quiz` picks from the candidate pool when it is non-empty. -/
theorem quiz_eq_pick (store : List Question) (cid : Nat) (prev : List Nat)
    (r : Nat) (hl : 0 < (quizCandidates store cid prev).length) :
    quiz store ⟨some ⟨some cid⟩, some prev⟩ r =
      Resp.ok (some (Question.format ((quizCandidates store cid prev).get
        ⟨r % (quizCandidates store cid prev).length, Nat.mod_lt r hl⟩))) := by
  unfold quiz
  rw [quiz_body_valid, dif_pos hl]

/-- On a body with a category identifier and a previous-questions list,
`quiz` answers the completion sentinel when the pool is empty. -/
theorem quiz_eq_none (store : List Question) (cid : Nat) (prev : List Nat)
    (r : Nat) (hl : ¬0 < (quizCandidates store cid prev).length) :
    quiz store ⟨some ⟨some cid⟩, some prev⟩ r = Resp.ok none := by
  unfold quiz
  rw [quiz_body_valid, dif_neg hl]

/-- Every member of the candidate pool is unseen and, for a non-zero
category identifier, lies in the requested category. -/
theorem mem_quizCandidates (store : List Question) (cid : Nat)
    (prev : List Nat) (q : Question)
    (hq : q ∈ quizCandidates store cid prev) :
    q.id ∉ prev ∧ (cid ≠ 0 → q.category = cid) := by
  unfold quizCandidates at hq
  by_cases hc : cid = 0
  · rw [if_pos hc] at hq
    refine ⟨?_, fun h0 => absurd hc h0⟩
    simpa using (List.mem_filter.mp hq).2
  · rw [if_neg hc] at hq
    have h1 := List.mem_filter.mp hq
    have h2 := List.mem_filter.mp h1.1
    exact ⟨by simpa using h1.2, fun _ => by simpa using h2.2⟩

/-- C5: for every POST /quizzes request with a well-formed body, the
question returned (when not null) has an identifier that is not in the
request's `previous_questions`, and its category matches the requested
category when the category identifier is non-zero (identifier 0 meaning
no restriction). -/
theorem C5_quiz_respects_exclusions (store : List Question) (cid : Nat)
    (prev : List Nat) (r : Nat) (fq : QFormat)
    (h : quiz store ⟨some ⟨some cid⟩, some prev⟩ r = Resp.ok (some fq)) :
    fq.id ∉ prev ∧ (cid ≠ 0 → fq.category = cid) := by
  by_cases hl : 0 < (quizCandidates store cid prev).length
  · rw [quiz_eq_pick store cid prev r hl] at h
    simp only [Resp.ok.injEq, Option.some.injEq] at h
    obtain ⟨hid, hcat⟩ := mem_quizCandidates store cid prev _
      (List.get_mem _ _ (Nat.mod_lt r hl))
    rw [← h]
    exact ⟨hid, hcat⟩
  · rw [quiz_eq_none store cid prev r hl] at h
    simp at h

/-- Witness for C5: with questions 5 and 6 in category 1 and question 5
already seen, the quiz returns question 6, which is unseen and in the
requested category. -/
theorem C5_witness :
    quiz [⟨5, "q", "a", 1, 1⟩, ⟨6, "r", "b", 1, 1⟩]
        ⟨some ⟨some 1⟩, some [5]⟩ 0 =
      Resp.ok (some (Question.format ⟨6, "r", "b", 1, 1⟩))
    ∧ (Question.format ⟨6, "r", "b", 1, 1⟩).id ∉ [5]
    ∧ (1 ≠ 0 → (Question.format ⟨6, "r", "b", 1, 1⟩).category = 1) :=
  ⟨by decide,
    (C5_quiz_respects_exclusions [⟨5, "q", "a", 1, 1⟩, ⟨6, "r", "b", 1, 1⟩]
      1 [5] 0 (Question.format ⟨6, "r", "b", 1, 1⟩) (by decide)).1,
    (C5_quiz_respects_exclusions [⟨5, "q", "a", 1, 1⟩, ⟨6, "r", "b", 1, 1⟩]
      1 [5] 0 (Question.format ⟨6, "r", "b", 1, 1⟩) (by decide)).2⟩

/-- C7: for every POST /quizzes request with a well-formed body whose
candidate set (category-scoped pool minus `previous_questions`) is empty,
the response is a success carrying the `null` quiz-complete sentinel, not
an error. -/
theorem C7_quiz_complete_sentinel (store : List Question) (cid : Nat)
    (prev : List Nat) (r : Nat)
    (h : quizCandidates store cid prev = []) :
    quiz store ⟨some ⟨some cid⟩, some prev⟩ r = Resp.ok none :=
  quiz_eq_none store cid prev r (by rw [h]; simp)

/-- Witness for C7: the spec's concrete scenario - questions 5 and 6 in
category 1, both already seen. -/
theorem C7_witness :
    quizCandidates [⟨5, "q", "a", 1, 1⟩, ⟨6, "r", "b", 1, 1⟩] 1 [5, 6] = []
    ∧ quiz [⟨5, "q", "a", 1, 1⟩, ⟨6, "r", "b", 1, 1⟩]
        ⟨some ⟨some 1⟩, some [5, 6]⟩ 3 = Resp.ok none :=
  ⟨by decide,
    C7_quiz_complete_sentinel [⟨5, "q", "a", 1, 1⟩, ⟨6, "r", "b", 1, 1⟩]
      1 [5, 6] 3 (by decide)⟩

/-- C8: for every POST /quizzes request whose body lacks the
`previous_questions` collection or lacks a `quiz_category` descriptor
containing an identifier, the operation answers HTTP 422 (the raised
`TypeError`/`KeyError`/`notin_(None)` error lands in the bare `except`)
and returns no question. -/
theorem C8_quiz_malformed_body (store : List Question) (body : QuizBody)
    (r : Nat)
    (h : body.quiz_category = none
      ∨ (∃ c, body.quiz_category = some c ∧ c.id = none)
      ∨ body.previous_questions = none) :
    quiz store body r = Resp.err 422 := by
  rcases h with h | ⟨c, hc, hcid⟩ | h
  · simp [quiz, quiz_body, h]
  · simp [quiz, quiz_body, hc, hcid]
  · cases hqc : body.quiz_category with
    | none => simp [quiz, quiz_body, hqc]
    | some c =>
      cases hcid : c.id with
      | none => simp [quiz, quiz_body, hqc, hcid]
      | some cid => simp [quiz, quiz_body, hqc, hcid, h]

/-- Witness for C8: the repository's own failing-quiz test body - a
category descriptor but no `previous_questions`. -/
theorem C8_witness :
    (⟨some ⟨some 1⟩, none⟩ : QuizBody).previous_questions = none
    ∧ quiz [⟨5, "q", "a", 1, 1⟩] ⟨some ⟨some 1⟩, none⟩ 0 = Resp.err 422 :=
  ⟨rfl, C8_quiz_malformed_body [⟨5, "q", "a", 1, 1⟩] ⟨some ⟨some 1⟩, none⟩ 0
    (Or.inr (Or.inr rfl))⟩

/-- C9: search is case-insensitive - two search terms equal after
characterwise case-folding produce identical responses (hence identical
result sets) on every store, whatever the other body fields. -/
theorem C9_search_case_insensitive (store : List Question) (page : Nat)
    (q a : Option String) (d c : Option Nat) (t1 t2 : String)
    (h : foldChars t1 = foldChars t2) :
    post_or_search_question store ⟨q, a, d, c, some t1⟩ page =
      post_or_search_question store ⟨q, a, d, c, some t2⟩ page := by
  have hnil : t1.toList = [] ↔ t2.toList = [] := by
    unfold foldChars at h
    rw [← List.map_eq_nil_iff (f := Char.toLower), h, List.map_eq_nil_iff]
  have htr : truthyStr (some t1) = truthyStr (some t2) := by
    have h1 : t1.toList.isEmpty = t2.toList.isEmpty := by
      by_cases hz : t1.toList = []
      · rw [hz, hnil.mp hz]
      · have hz2 : t2.toList ≠ [] := fun he => hz (hnil.mpr he)
        cases he1 : t1.toList with
        | nil => exact absurd he1 hz
        | cons x xs =>
          cases he2 : t2.toList with
          | nil => exact absurd he2 hz2
          | cons y ys => rfl
    show (!t1.toList.isEmpty) = (!t2.toList.isEmpty)
    rw [h1]
  have hsel : searchSelection store t1 = searchSelection store t2 := by
    unfold searchSelection ilikeContains
    simp only [h]
  by_cases ht : truthyStr (some t1) = true
  · have ht2 : truthyStr (some t2) = true := by rw [← htr]; exact ht
    simp [post_or_search_question, post_body, ht, ht2, hsel]
  · have ht1 : truthyStr (some t1) = false := by
      simpa using ht
    have ht2 : truthyStr (some t2) = false := by rw [← htr]; exact ht1
    simp [post_or_search_question, post_body, ht1, ht2]

/-- Witness for C9: "TITLE" and "title" give identical responses. -/
theorem C9_witness :
    foldChars "TITLE" = foldChars "title"
    ∧ post_or_search_question [⟨1, "What is the Title?", "b", 1, 1⟩]
        ⟨none, none, none, none, some "TITLE"⟩ 1 =
      post_or_search_question [⟨1, "What is the Title?", "b", 1, 1⟩]
        ⟨none, none, none, none, some "title"⟩ 1 :=
  ⟨by decide,
    C9_search_case_insensitive [⟨1, "What is the Title?", "b", 1, 1⟩] 1
      none none none none "TITLE" "title" (by decide)⟩

end Trivia
